import Mathlib

/-!
Verification of the bellizy-api server (`src/server.js`): a shallow embedding of
the webhook ingestion endpoint, the verification gate, the in-memory message
store, the send-message endpoint with its local echo and outbound request
builder, and the broadcast events, together with theorems settling the
specification claims.
-/

set_option autoImplicit false

namespace Bellizy

/-- JSON-like JavaScript values as delivered by `express.json()` / the query
parser: `undefined`, `null`, booleans, numbers (integral, sufficient for the
payloads the server manipulates), strings, arrays, objects. -/
inductive JValue where
  | undefined : JValue
  | null : JValue
  | bool : Bool → JValue
  | num : Int → JValue
  | str : String → JValue
  | arr : List JValue → JValue
  | obj : List (String × JValue) → JValue
deriving Repr

/-- JavaScript truthiness of a value (`if (v)`).  `undefined`, `null`, `false`,
`0` and `""` are falsy; every array and object (including `[]` and `{}`) is
truthy. -/
def truthy : JValue → Bool
  | .undefined => false
  | .null => false
  | .bool b => b
  | .num n => n != 0
  | .str s => s != ""
  | .arr _ => true
  | .obj _ => true

/-- JavaScript property access `v.k`.  Throws (TypeError, modelled as
`Except.error`) on `undefined`/`null`; on an object it yields the field or
`undefined` when absent; on any other value it yields `undefined` (none of the
field names the server reads is a built-in property of primitives). -/
def getProp : JValue → String → Except Unit JValue
  | .undefined, _ => .error ()
  | .null, _ => .error ()
  | .obj fs, k => .ok ((fs.lookup k).getD .undefined)
  | _, _ => .ok .undefined

/-- JavaScript index access `v[n]` for a numeric literal index.  Throws on
`undefined`/`null`; on an array it yields the element or `undefined` out of
range; on an object it looks up the stringified index; on a string it yields
the one-character string at that position; on other primitives `undefined`. -/
def getIdx : JValue → Nat → Except Unit JValue
  | .undefined, _ => .error ()
  | .null, _ => .error ()
  | .arr xs, n => .ok ((xs.get? n).getD .undefined)
  | .obj fs, n => .ok ((fs.lookup (toString n)).getD .undefined)
  | .str s, n => .ok (match s.toList.get? n with
      | some c => .str (String.singleton c)
      | none => .undefined)
  | _, _ => .ok .undefined

/-- Strict equality `v === "s"` against a string literal. -/
def isStrEq (v : JValue) (s : String) : Bool :=
  match v with
  | .str t => t == s
  | _ => false

/-- Total object-field read used where the server destructures a request body
(`const { to, text, templateName } = req.body`): `express.json()` always
provides an object or array body, so no throw is modelled here. -/
def jGetD (v : JValue) (k : String) : JValue :=
  match v with
  | .obj fs => (fs.lookup k).getD .undefined
  | _ => .undefined

/-- Model of the JavaScript builtin `parseInt` on a string: skip leading
whitespace, read an optional sign and then leading decimal digits; no digits
means `NaN` (`none`).  (The hexadecimal `0x` prefix form is not modelled; no
payload considered here uses it.) -/
def parseIntStr (s : String) : Option Int :=
  let cs := s.toList.dropWhile Char.isWhitespace
  let signAndRest : Int × List Char :=
    match cs with
    | '-' :: r => (-1, r)
    | '+' :: r => (1, r)
    | r => (1, r)
  let ds := signAndRest.2.takeWhile Char.isDigit
  if ds.isEmpty then none
  else some (signAndRest.1 * (ds.foldl (fun a c => a * 10 + (c.toNat - 48)) 0 : Nat))

/-- `parseInt(v)` on a JSON value: `String(v)` then `parseIntStr`.  Strings
parse directly, integral numbers round-trip through their decimal printing;
the string coercion of `undefined`, `null`, booleans and objects has no
leading digits, hence `NaN` (coercions of arrays are likewise modelled as
`NaN`; no claim here exercises an array timestamp). -/
def jsParseInt : JValue → Option Int
  | .str s => parseIntStr s
  | .num n => some n
  | _ => none

/-- Models `new Date(parseInt(t) * 1000).toISOString()` from the webhook
handler, keeping the epoch-milliseconds instant as the timestamp value (the
ISO-8601 rendering of a valid instant is a formatting detail no claim
inspects).  `parseInt` yielding `NaN`, or a millisecond value outside the
ECMAScript `Date` range `±8.64e15`, makes `toISOString` throw a `RangeError`,
modelled as `Except.error`. -/
def epochMsOfTimestamp (v : JValue) : Except Unit Int :=
  match jsParseInt v with
  | none => .error ()
  | some t =>
    let ms := t * 1000
    if ms.natAbs > 8640000000000000 then .error () else .ok ms

/-- A record of the in-memory message store (`MESSAGES`).  `from_` renders the
source's `from` field (`from` is reserved in Lean); `to` is absent on received
records; `timestamp` is the underlying instant in epoch milliseconds. -/
structure MessageRecord where
  id : JValue
  from_ : JValue
  senderName : JValue
  «to» : Option JValue
  text : JValue
  timestamp : Int
  type : String
deriving Repr

/-- Events the server broadcasts over the socket channel. -/
inductive JsEvent where
  | newMessage : MessageRecord → JsEvent
  | messagesCleared : JsEvent
deriving Repr

/-- Lines 91–94 of `server.js`: `let senderName = msg.from;` then overwrite
with `changes.contacts[0].profile.name` when `contacts`, `contacts[0]` and
`profile` are all truthy. -/
def computeSenderName (changes msg : JValue) : Except Unit JValue := do
  let initial ← getProp msg "from"
  let contacts ← getProp changes "contacts"
  if truthy contacts then
    let c0 ← getIdx contacts 0
    if truthy c0 then
      let profile ← getProp c0 "profile"
      if truthy profile then
        getProp profile "name"
      else
        return initial
    else
      return initial
  else
    return initial

/-- Lines 81–112 of `server.js`, the body of the truthy-`object` branch: the
chained guard `body.entry && body.entry[0].changes && body.entry[0].changes[0]
&& body.entry[0].changes[0].value.messages && ...messages[0]`, the sender-name
lookup, the `type === 'text'` filter and the record construction.  Property
accesses follow the source's evaluation order, so a `TypeError`/`RangeError`
thrown partway (e.g. `.changes` on `undefined`, `.messages` on a missing
`value`, `.body` on a missing `text`, an unparsable `timestamp`) surfaces as
`Except.error`, caught by the handler's `try`/`catch`. -/
def extractRecord (body : JValue) : Except Unit (Option MessageRecord) := do
  let entry ← getProp body "entry"
  if !truthy entry then return none
  let e0 ← getIdx entry 0
  let changesField ← getProp e0 "changes"
  if !truthy changesField then return none
  let c0 ← getIdx changesField 0
  if !truthy c0 then return none
  let changes ← getProp c0 "value"
  let messages ← getProp changes "messages"
  if !truthy messages then return none
  let msg ← getIdx messages 0
  if !truthy msg then return none
  let senderName ← computeSenderName changes msg
  let mtype ← getProp msg "type"
  if isStrEq mtype "text" then
    let mid ← getProp msg "id"
    let mfrom ← getProp msg "from"
    let mtext ← getProp msg "text"
    let mbody ← getProp mtext "body"
    let mts ← getProp msg "timestamp"
    let ts ← epochMsOfTimestamp mts
    return some
      { id := mid, from_ := mfrom, senderName := senderName, «to» := none,
        text := mbody, timestamp := ts, type := "received" }
  else
    return none

/-- Outcome of one HTTP request against the webhook POST endpoint: response
status, the record pushed onto `MESSAGES` (if any) and the events emitted. -/
structure WebhookOutcome where
  status : Nat
  newRecord : Option MessageRecord
  events : List JsEvent
deriving Repr

/-- Lines 73–123 of `server.js`, `app.post('/webhook')`: 404 when `body.object`
is falsy, otherwise 200 with an optional stored record and `new_message`
broadcast; any exception inside the `try` is caught and answered with 500. -/
def webhookPost (body : JValue) : WebhookOutcome :=
  match getProp body "object" with
  | .error _ => ⟨500, none, []⟩
  | .ok o =>
    if truthy o then
      match extractRecord body with
      | .ok (some r) => ⟨200, some r, [.newMessage r]⟩
      | .ok none => ⟨200, none, []⟩
      | .error _ => ⟨500, none, []⟩
    else
      ⟨404, none, []⟩

/-- Outcome of a GET `/webhook` verification request. -/
structure VerifyOutcome where
  status : Nat
  body : Option JValue
deriving Repr

/-- `process.env.WEBHOOK_VERIFY_TOKEN || 'bellizy_token'` (line 64): the
configured token, defaulting when the environment variable is unset or empty
(an empty environment string is falsy). -/
def configuredVerifyToken (env : Option String) : String :=
  match env with
  | some s => if s != "" then s else "bellizy_token"
  | none => "bellizy_token"

/-- Lines 59–70 of `server.js`, `app.get('/webhook')`: echo the challenge with
200 when `hub.mode === 'subscribe'` and `hub.verify_token` strictly equals the
configured token, else 403. -/
def webhookVerify (env : Option String) (mode token challenge : JValue) :
    VerifyOutcome :=
  if isStrEq mode "subscribe" && isStrEq token (configuredVerifyToken env) then
    ⟨200, some challenge⟩
  else
    ⟨403, none⟩

/-- `MESSAGES.push(r)` on a store state (line 33: the store starts empty). -/
def appendMessage (s : List MessageRecord) (r : MessageRecord) :
    List MessageRecord :=
  s ++ [r]

/-- Lines 46–48, `app.get('/api/messages')`: full snapshot of the store. -/
def allMessages (s : List MessageRecord) : List MessageRecord := s

/-- `MESSAGES.length = 0` (line 52): clear the store in place, whatever it
held. -/
def clearMessages (_s : List MessageRecord) : List MessageRecord := []

/-- Outcome of a DELETE `/api/messages` request: the new store state, the
response status and the broadcast events. -/
structure DeleteOutcome where
  store : List MessageRecord
  status : Nat
  events : List JsEvent
deriving Repr

/-- Lines 51–56 of `server.js`, `app.delete('/api/messages')`: clear the store,
broadcast `messages_cleared`, respond 200. -/
def deleteMessagesEndpoint (s : List MessageRecord) : DeleteOutcome :=
  ⟨clearMessages s, 200, [.messagesCleared]⟩

/-- The wire payload the send endpoint builds for the platform API (lines
159–177): either a text message or a template message, each carrying
`messaging_product: 'whatsapp'`. -/
inductive OutboundPayload where
  | text : (messagingProduct : String) → (recipient : JValue) → (body : JValue) →
      OutboundPayload
  | template : (messagingProduct : String) → (recipient : JValue) →
      (name : JValue) → (languageCode : String) → OutboundPayload
deriving Repr

/-- Lines 159–177 of `server.js`: `if (text)` build the text payload, else the
template payload with `templateName || 'hello_world'` and language `en_US`. -/
def buildPayload («to» text templateName : JValue) : OutboundPayload :=
  if truthy text then
    .text "whatsapp" «to» text
  else
    .template "whatsapp" «to»
      (if truthy templateName then templateName else .str "hello_world") "en_US"

/-- Result of the awaited external `axios.post` call, which is outside the
repository: it either resolves with response data or rejects with an error
detail (HTTP rejection or network fault). -/
inductive ExtResult where
  | success : JValue → ExtResult
  | failure : JValue → ExtResult
deriving Repr

/-- The JSON body of a `/api/send-message` response: `{success, mocked?, data?,
error?}` (absent fields as `none`). -/
structure SendResponse where
  success : Bool
  mocked : Bool
  data : Option JValue
  error : Option JValue
deriving Repr

/-- Outcome of one POST `/api/send-message` request: response status and body,
the local-echo record appended to the store (if any), the events emitted, and
the outbound payload handed to the external call (`none` when the call was
skipped). -/
structure SendOutcome where
  status : Nat
  response : SendResponse
  echoed : Option MessageRecord
  events : List JsEvent
  payload : Option OutboundPayload
deriving Repr

/-- An environment value as seen through `process.env`: unset (`undefined`) or
a string. -/
def envToJValue : Option String → JValue
  | none => .undefined
  | some s => .str s

mutual

/-- JavaScript string coercion `String(v)` of a JSON value:
`String(undefined) = "undefined"`, objects print as `[object Object]`, arrays
join their elements with commas (`null` and `undefined` elements join as
empty). -/
def jsToString : JValue → String
  | .undefined => "undefined"
  | .null => "null"
  | .bool true => "true"
  | .bool false => "false"
  | .num n => toString n
  | .str s => s
  | .arr xs => jsToStringList xs
  | .obj _ => "[object Object]"

def jsToStringList : List JValue → String
  | [] => ""
  | [x] => jsToStringElem x
  | x :: xs => jsToStringElem x ++ "," ++ jsToStringList xs

def jsToStringElem : JValue → String
  | .undefined => ""
  | .null => ""
  | v => jsToString v

end

/-- Lines 134–149 of `server.js`: the local echo.  When `to && (text ||
templateName)`, a `sent` record is built with `id = 'sent_' + Date.now()`
(`now` is the millisecond clock reading), `text = text || 'Template: ' +
templateName` and the local timestamp, and pushed onto the store. -/
def localEcho (now : Int) (body : JValue) : Option MessageRecord :=
  let toV := jGetD body "to"
  let textV := jGetD body "text"
  let templateNameV := jGetD body "templateName"
  if truthy toV && (truthy textV || truthy templateNameV) then
    some
      { id := .str ("sent_" ++ toString now), from_ := .str "me",
        senderName := .str "Me", «to» := some toV,
        text := if truthy textV then textV
          else .str ("Template: " ++ jsToString templateNameV),
        timestamp := now, type := "sent" }
  else
    none

/-- `req.body.token || process.env.META_ACCESS_TOKEN` (line 131). -/
def resolvedToken (accessToken : Option String) (body : JValue) : JValue :=
  let t := jGetD body "token"
  if truthy t then t else envToJValue accessToken

/-- Line 151's guard, positively: both the resolved token and the phone id are
truthy, so the external call is attempted rather than mocked. -/
def credsOk (accessToken phoneId : Option String) (body : JValue) : Bool :=
  truthy (resolvedToken accessToken body) && truthy (envToJValue phoneId)

/-- Lines 126–193 of `server.js`, `app.post('/api/send-message')`: local echo
first (with its `new_message` broadcast), then the mocked-success short
circuit when a credential is missing, otherwise the external call, whose
resolution or rejection is answered as a 200 JSON body — `{success:true,
data}` or the soft failure `{success:false, error}`. -/
def sendMessage (accessToken phoneId : Option String) (now : Int)
    (body : JValue) (ext : ExtResult) : SendOutcome :=
  let echoed := localEcho now body
  let events := echoed.toList.map JsEvent.newMessage
  if !credsOk accessToken phoneId body then
    ⟨200, ⟨true, true, none, none⟩, echoed, events, none⟩
  else
    let payload := buildPayload (jGetD body "to") (jGetD body "text")
      (jGetD body "templateName")
    match ext with
    | .success d => ⟨200, ⟨true, false, some d, none⟩, echoed, events, some payload⟩
    | .failure e => ⟨200, ⟨false, false, none, some e⟩, echoed, events, some payload⟩

/-- One externally triggered operation on the running server, carrying every
input the corresponding handler reads (request body, environment, clock,
external-call result). -/
inductive Op where
  | webhook : JValue → Op
  | send : (accessToken phoneId : Option String) → (now : Int) → JValue →
      ExtResult → Op
  | clear : Op
  | readAll : Op

/-- The records an operation pushes onto the store; state-independent (each
handler appends at most one record, and neither handler reads the store). -/
def opNewRecords : Op → List MessageRecord
  | .webhook b => (webhookPost b).newRecord.toList
  | .send tok ph now body ext => (sendMessage tok ph now body ext).echoed.toList
  | .clear => []
  | .readAll => []

/-- Effect of one operation on the store state. -/
def stepOp (s : List MessageRecord) : Op → List MessageRecord
  | .clear => clearMessages s
  | op => s ++ opNewRecords op

/-- Run a sequence of operations from a store state. -/
def runOpsFrom (s : List MessageRecord) : List Op → List MessageRecord
  | [] => s
  | op :: rest => runOpsFrom (stepOp s op) rest

/-- Store state reached by a sequence of operations from the empty initial
store (line 33: `const MESSAGES = []`). -/
def runOps (ops : List Op) : List MessageRecord :=
  runOpsFrom [] ops

/-! ### Concrete payloads used by counterexamples and witnesses -/

/-- A well-formed single-text-message webhook delivery (sender `1555`, id
`wamid.1`, body `hi`, timestamp `1700000000`, no contacts block). -/
def wfTextPayload : JValue :=
  .obj [("object", .bool true),
    ("entry", .arr [JValue.obj [("changes", .arr [JValue.obj [("value", .obj [
      ("messages", .arr [JValue.obj [("from", .str "1555"),
        ("id", .str "wamid.1"), ("type", .str "text"),
        ("text", .obj [("body", .str "hi")]),
        ("timestamp", .str "1700000000")]])])]])]])]

/-- The record the webhook handler stores for `wfTextPayload`. -/
def wfRecord : MessageRecord :=
  { id := .str "wamid.1", from_ := .str "1555", senderName := .str "1555",
    «to» := none, text := .str "hi", timestamp := 1700000000000,
    type := "received" }

/-- A webhook body with a truthy `object` and a truthy but empty `entry`
array: `body.entry` passes the guard's first conjunct, and then
`body.entry[0].changes` reads `.changes` off `undefined` and throws. -/
def malformedEntryPayload : JValue :=
  .obj [("object", .bool true), ("entry", .arr [])]

/-!  ### Helper lemmas -/

theorem isStrEq_iff (v : JValue) (s : String) : isStrEq v s = true ↔ v = .str s := by
  cases v <;> simp [isStrEq]

theorem verifyCond_iff (env : Option String) (mode token : JValue) :
    (isStrEq mode "subscribe" && isStrEq token (configuredVerifyToken env)) = true ↔
      (mode = JValue.str "subscribe" ∧
        token = JValue.str (configuredVerifyToken env)) := by
  rw [Bool.and_eq_true, isStrEq_iff, isStrEq_iff]

/-! ### Claims -/

/-- C8: the verification gate answers 200 with body equal to the
`hub.challenge` value exactly when `hub.mode` is `"subscribe"` and
`hub.verify_token` equals the configured token (`"bellizy_token"` when the
environment variable is unset), and 403 in every other case. -/
theorem webhook_verify_gate_C8 (env : Option String) (mode token challenge : JValue) :
    (webhookVerify env mode token challenge = ⟨200, some challenge⟩ ↔
      (mode = JValue.str "subscribe" ∧
        token = JValue.str (configuredVerifyToken env))) ∧
    (¬(mode = JValue.str "subscribe" ∧
        token = JValue.str (configuredVerifyToken env)) →
      webhookVerify env mode token challenge = ⟨403, none⟩) := by
  by_cases hc : (isStrEq mode "subscribe" &&
      isStrEq token (configuredVerifyToken env)) = true
  · have hp := (verifyCond_iff env mode token).mp hc
    constructor
    · exact ⟨fun _ => hp, fun _ => by simp only [webhookVerify, if_pos hc]⟩
    · intro hn
      exact absurd hp hn
  · have hp := (verifyCond_iff env mode token).not.mp hc
    constructor
    · constructor
      · intro hEq
        rw [webhookVerify, if_neg hc] at hEq
        have h2 := congrArg VerifyOutcome.status hEq
        simp at h2
      · intro h
        exact absurd h hp
    · intro _
      rw [webhookVerify, if_neg hc]

/-- C8 witness: the gate accepts the default token with mode `subscribe` and
rejects a wrong mode. -/
theorem webhook_verify_gate_C8_witness :
    webhookVerify none (.str "subscribe") (.str "bellizy_token") (.str "ch") =
      ⟨200, some (.str "ch")⟩ ∧
    webhookVerify none (.str "other") (.str "bellizy_token") (.str "ch") =
      ⟨403, none⟩ :=
  ⟨(webhook_verify_gate_C8 none _ _ _).1.mpr ⟨rfl, rfl⟩,
   (webhook_verify_gate_C8 none _ _ _).2 (by simp)⟩

/-- C7: the outbound request builder yields the text shape with
`text.body` equal to the given text whenever `text` is truthy (priority over
any template name), the template shape with the given name when `text` is
falsy and `templateName` truthy, and the `hello_world` / `en_US` template
when both are falsy. -/
theorem outbound_builder_C7 («to» text templateName : JValue) :
    (truthy text = true →
      buildPayload «to» text templateName = .text "whatsapp" «to» text) ∧
    (truthy text = false → truthy templateName = true →
      buildPayload «to» text templateName =
        .template "whatsapp" «to» templateName "en_US") ∧
    (truthy text = false → truthy templateName = false →
      buildPayload «to» text templateName =
        .template "whatsapp" «to» (.str "hello_world") "en_US") := by
  refine ⟨fun ht => ?_, fun ht htn => ?_, fun ht htn => ?_⟩
  · simp [buildPayload, ht]
  · simp [buildPayload, ht, htn]
  · simp [buildPayload, ht, htn]

/-- C7 witness: the three builder shapes at concrete inputs, with a template
name also supplied in the text case to exhibit the priority. -/
theorem outbound_builder_C7_witness :
    buildPayload (.str "1") (.str "hello") (.str "promo") =
      .text "whatsapp" (.str "1") (.str "hello") ∧
    buildPayload (.str "1") .undefined (.str "promo") =
      .template "whatsapp" (.str "1") (.str "promo") "en_US" ∧
    buildPayload (.str "1") .undefined .undefined =
      .template "whatsapp" (.str "1") (.str "hello_world") "en_US" :=
  ⟨(outbound_builder_C7 _ _ _).1 rfl, (outbound_builder_C7 _ _ _).2.1 rfl rfl,
   (outbound_builder_C7 _ _ _).2.2 rfl rfl⟩

/-- C6: the store preserves insertion order (`append r1` then `append r2` on
any state `s` reads back as `s ++ [r1, r2]`), clearing empties it, clearing is
idempotent, and the DELETE endpoint always answers 200 with a
`messages_cleared` broadcast and an empty store. -/
theorem store_order_clear_C6 (s : List MessageRecord) (r1 r2 : MessageRecord) :
    allMessages (appendMessage (appendMessage s r1) r2) = s ++ [r1, r2] ∧
    allMessages (clearMessages s) = [] ∧
    clearMessages (clearMessages s) = clearMessages s ∧
    deleteMessagesEndpoint s = ⟨[], 200, [.messagesCleared]⟩ := by
  refine ⟨?_, rfl, rfl, rfl⟩
  simp [allMessages, appendMessage]

/-- C4: when the external send call rejects, the response is still status 200
with `success:false` carrying the error detail (or the mocked success when a
credential is missing and the call is skipped), and the local echo appended
before the call is exactly what reaches the store — unchanged from the
success path. -/
theorem send_soft_fail_C4 (accessToken phoneId : Option String) (now : Int)
    (body e d : JValue) :
    (sendMessage accessToken phoneId now body (.failure e)).status = 200 ∧
    (sendMessage accessToken phoneId now body (.failure e)).echoed =
      localEcho now body ∧
    (sendMessage accessToken phoneId now body (.failure e)).echoed =
      (sendMessage accessToken phoneId now body (.success d)).echoed ∧
    (credsOk accessToken phoneId body = true →
      (sendMessage accessToken phoneId now body (.failure e)).response =
        ⟨false, false, none, some e⟩) ∧
    (credsOk accessToken phoneId body = false →
      (sendMessage accessToken phoneId now body (.failure e)).response =
        ⟨true, true, none, none⟩) := by
  by_cases h : credsOk accessToken phoneId body <;>
    simp [sendMessage, h]

/-- C4 witness: a rejected external call with credentials configured yields
200 / `success:false` with the error echoed, and the local echo is kept. -/
theorem send_soft_fail_C4_witness :
    (sendMessage (some "tok") (some "pid") 1700
        (.obj [("to", .str "1555"), ("text", .str "hello")])
        (.failure (.str "err"))).status = 200 ∧
    (sendMessage (some "tok") (some "pid") 1700
        (.obj [("to", .str "1555"), ("text", .str "hello")])
        (.failure (.str "err"))).response = ⟨false, false, none, some (.str "err")⟩ ∧
    (sendMessage (some "tok") (some "pid") 1700
        (.obj [("to", .str "1555"), ("text", .str "hello")])
        (.failure (.str "err"))).echoed =
      localEcho 1700 (.obj [("to", .str "1555"), ("text", .str "hello")]) :=
  ⟨(send_soft_fail_C4 (some "tok") (some "pid") 1700 _ _ JValue.null).1,
   (send_soft_fail_C4 (some "tok") (some "pid") 1700 _ _ JValue.null).2.2.2.1 rfl,
   (send_soft_fail_C4 (some "tok") (some "pid") 1700 _ _ JValue.null).2.1⟩

/-- C5: with a truthy `to`, no credentials resolved, and either a truthy
`text` or (falsy `text` and truthy `templateName`), the response is 200
`{success:true, mocked:true}` and exactly one `sent` record — `from:"me"`,
`senderName:"Me"`, `id = "sent_" + now`, text equal to the given text or to
the `"Template: <name>"` placeholder — is appended to the store before the
response. -/
theorem send_mocked_echo_C5 (accessToken phoneId : Option String) (now : Int)
    (body : JValue) (ext : ExtResult) (s : List MessageRecord)
    (hto : truthy (jGetD body "to") = true)
    (hcreds : credsOk accessToken phoneId body = false) :
    (truthy (jGetD body "text") = true →
      sendMessage accessToken phoneId now body ext =
        ⟨200, ⟨true, true, none, none⟩,
          some ⟨.str ("sent_" ++ toString now), .str "me", .str "Me",
            some (jGetD body "to"), jGetD body "text", now, "sent"⟩,
          [.newMessage ⟨.str ("sent_" ++ toString now), .str "me", .str "Me",
            some (jGetD body "to"), jGetD body "text", now, "sent"⟩], none⟩ ∧
      stepOp s (.send accessToken phoneId now body ext) =
        s ++ [⟨.str ("sent_" ++ toString now), .str "me", .str "Me",
          some (jGetD body "to"), jGetD body "text", now, "sent"⟩]) ∧
    (truthy (jGetD body "text") = false →
      truthy (jGetD body "templateName") = true →
      sendMessage accessToken phoneId now body ext =
        ⟨200, ⟨true, true, none, none⟩,
          some ⟨.str ("sent_" ++ toString now), .str "me", .str "Me",
            some (jGetD body "to"),
            .str ("Template: " ++ jsToString (jGetD body "templateName")),
            now, "sent"⟩,
          [.newMessage ⟨.str ("sent_" ++ toString now), .str "me", .str "Me",
            some (jGetD body "to"),
            .str ("Template: " ++ jsToString (jGetD body "templateName")),
            now, "sent"⟩], none⟩) := by
  refine ⟨fun htext => ⟨?_, ?_⟩, fun htext htn => ?_⟩ <;>
    simp [sendMessage, localEcho, stepOp, opNewRecords, hcreds, hto, htext, *]

/-- C5 witness: `{to:"1555", text:"hello"}` with no credentials at clock 1700
yields the mocked success and the one echoed `sent` record. -/
theorem send_mocked_echo_C5_witness :
    sendMessage none none 1700
        (.obj [("to", .str "1555"), ("text", .str "hello")]) (.success .null) =
      ⟨200, ⟨true, true, none, none⟩,
        some ⟨.str "sent_1700", .str "me", .str "Me", some (.str "1555"),
          .str "hello", 1700, "sent"⟩,
        [.newMessage ⟨.str "sent_1700", .str "me", .str "Me",
          some (.str "1555"), .str "hello", 1700, "sent"⟩], none⟩ :=
  ((send_mocked_echo_C5 none none 1700
      (.obj [("to", .str "1555"), ("text", .str "hello")]) (.success .null) []
      rfl rfl).1 rfl).1

/-- C10: when `to` is falsy, or `text` and `templateName` are both falsy, no
local-echo record is appended and no event is broadcast, yet with no
credentials the response is still the 200 mocked success — mocked success
does not imply a stored record. -/
theorem send_no_echo_C10 (accessToken phoneId : Option String) (now : Int)
    (body : JValue) (ext : ExtResult) (s : List MessageRecord)
    (h : (truthy (jGetD body "to") &&
      (truthy (jGetD body "text") || truthy (jGetD body "templateName"))) = false) :
    (sendMessage accessToken phoneId now body ext).echoed = none ∧
    (sendMessage accessToken phoneId now body ext).events = [] ∧
    stepOp s (.send accessToken phoneId now body ext) = s ∧
    (credsOk accessToken phoneId body = false →
      sendMessage accessToken phoneId now body ext =
        ⟨200, ⟨true, true, none, none⟩, none, [], none⟩) := by
  have he : localEcho now body = none := by
    simp only [localEcho]
    rw [if_neg (by simp [h])]
  by_cases hcreds : credsOk accessToken phoneId body
  · cases ext <;>
      simp [sendMessage, stepOp, opNewRecords, he, hcreds]
  · simp [sendMessage, stepOp, opNewRecords, he, hcreds]

/-- C10 witness: `{text:"hello"}` with `to` absent and no credentials still
answers the mocked success while storing nothing. -/
theorem send_no_echo_C10_witness :
    sendMessage none none 1700 (.obj [("text", .str "hello")]) (.failure .null) =
      ⟨200, ⟨true, true, none, none⟩, none, [], none⟩ :=
  (send_no_echo_C10 none none 1700 (.obj [("text", .str "hello")])
    (.failure .null) [] rfl).2.2.2 rfl

/-- C1 counterexample: `{object: true, entry: []}` has a truthy `object` and a
malformed nesting (`entry` truthy but `entry[0]` undefined, so reading
`.changes` throws), and the handler answers 500, not the claimed 200. -/
theorem webhook_malformed_C1_cex :
    truthy (jGetD malformedEntryPayload "object") = true ∧
    webhookPost malformedEntryPayload = ⟨500, none, []⟩ :=
  ⟨rfl, rfl⟩

/-- C1 (amended): the handler answers 404 exactly when `object` is falsy;
with a truthy `object` it answers 200 exactly when the tolerant descent
completes without throwing, and 500 — not 200 — when a malformed nesting
makes a property access or the timestamp conversion throw. -/
theorem webhook_status_C1_amended (body o : JValue)
    (h : getProp body "object" = .ok o) :
    (truthy o = false → webhookPost body = ⟨404, none, []⟩) ∧
    ((webhookPost body).status = 404 ↔ truthy o = false) ∧
    (truthy o = true →
      (((webhookPost body).status = 200 ↔
        ∃ rec, extractRecord body = .ok rec) ∧
      (extractRecord body = .error () →
        webhookPost body = ⟨500, none, []⟩))) := by
  by_cases ht : truthy o
  · cases hex : extractRecord body with
    | ok rec =>
      cases rec <;> simp [webhookPost, h, ht, hex]
    | error u =>
      cases u
      simp [webhookPost, h, ht, hex]
  · simp [webhookPost, h, ht]

/-- C1 amended witness: a falsy `object` body answers 404, and the
well-formed text payload answers 200. -/
theorem webhook_status_C1_amended_witness :
    webhookPost (.obj [("object", .bool false)]) = ⟨404, none, []⟩ ∧
    (webhookPost wfTextPayload).status = 200 :=
  ⟨(webhook_status_C1_amended (.obj [("object", .bool false)]) (.bool false)
      rfl).1 rfl,
   ((webhook_status_C1_amended wfTextPayload (.bool true) rfl).2.2 rfl).1.mpr
     ⟨some wfRecord, rfl⟩⟩

/-- The records appended over a whole operation history, clears included as
appending nothing. -/
def historyRecords : List Op → List MessageRecord
  | [] => []
  | op :: rest => opNewRecords op ++ historyRecords rest

theorem runOpsFrom_suffix (ops : List Op) (s : List MessageRecord) :
    (runOpsFrom s ops).IsSuffix (s ++ historyRecords ops) := by
  induction ops generalizing s with
  | nil =>
    simp [runOpsFrom, historyRecords]
  | cons op rest ih =>
    have step : (stepOp s op ++ historyRecords rest).IsSuffix
        (s ++ historyRecords (op :: rest)) := by
      cases op with
      | clear =>
        simp only [stepOp, clearMessages, historyRecords, opNewRecords,
          List.nil_append]
        exact List.suffix_append s (historyRecords rest)
      | webhook b =>
        simp [stepOp, historyRecords, List.append_assoc]
      | send tok ph now body ext =>
        simp [stepOp, historyRecords, List.append_assoc]
      | readAll =>
        simp [stepOp, historyRecords, List.append_assoc]
    exact (ih (stepOp s op)).trans step

/-- C2 counterexample: redelivering the same well-formed webhook payload
twice yields a reachable store holding two records with equal `id`
(`wamid.1`), so store-wide `id` uniqueness fails. -/
theorem store_id_unique_C2_cex :
    ¬ (runOps [.webhook wfTextPayload, .webhook wfTextPayload]).Pairwise
        (fun a b => a.id ≠ b.id) := by
  intro hp
  have e : runOps [.webhook wfTextPayload, .webhook wfTextPayload] =
      [wfRecord, wfRecord] := rfl
  rw [e] at hp
  exact (List.pairwise_cons.mp hp).1 wfRecord (by simp) rfl

/-- C2 (amended): `id` uniqueness holds only conditionally — if every record
ever appended over the history carries a distinct `id` (distinct upstream
message ids, no clashing generated `sent_` ids), then every reachable store
state has pairwise-distinct `id`s; unconditional uniqueness fails on
duplicate upstream deliveries. -/
theorem store_id_unique_C2_amended (ops : List Op)
    (h : (historyRecords ops).Pairwise (fun a b => a.id ≠ b.id)) :
    (runOps ops).Pairwise (fun a b => a.id ≠ b.id) := by
  have hs := runOpsFrom_suffix ops []
  rw [List.nil_append] at hs
  exact List.Pairwise.sublist hs.sublist h

/-- C2 amended witness: a history of one webhook delivery and one send (with
distinct generated id) reaches a store with pairwise-distinct ids. -/
theorem store_id_unique_C2_amended_witness :
    (runOps [.webhook wfTextPayload,
      .send none none 1700 (.obj [("to", .str "1555"), ("text", .str "hello")])
        (.success .null)]).Pairwise (fun a b => a.id ≠ b.id) := by
  apply store_id_unique_C2_amended
  have e : historyRecords [.webhook wfTextPayload,
      .send none none 1700 (.obj [("to", .str "1555"), ("text", .str "hello")])
        (.success .null)] =
      [wfRecord, ⟨.str "sent_1700", .str "me", .str "Me", some (.str "1555"),
        .str "hello", 1700, "sent"⟩] := rfl
  rw [e]
  refine List.pairwise_cons.mpr ⟨?_, List.pairwise_singleton _ _⟩
  intro b hb
  rw [List.mem_singleton.mp hb]
  intro hid
  exact absurd (JValue.str.inj hid) (by decide)

/-- A well-formed delivery whose `contacts[0].profile` is present but has no
`name` field. -/
def contactsNoNamePayload : JValue :=
  .obj [("object", .bool true),
    ("entry", .arr [JValue.obj [("changes", .arr [JValue.obj [("value", .obj [
      ("messages", .arr [JValue.obj [("from", .str "1555"),
        ("id", .str "wamid.3"), ("type", .str "text"),
        ("text", .obj [("body", .str "hi")]),
        ("timestamp", .str "1700000000")]]),
      ("contacts", .arr [JValue.obj [("profile", .obj [])]])])]])]])]

/-- The record stored for `contactsNoNamePayload`: `senderName` is
`undefined`, not the sender id. -/
def contactsNoNameRecord : MessageRecord :=
  { id := .str "wamid.3", from_ := .str "1555", senderName := .undefined,
    «to» := none, text := .str "hi", timestamp := 1700000000000,
    type := "received" }

/-- C3 counterexample: with a `profile` object lacking `name`, the stored
`senderName` is `undefined` — not the claimed fallback to `messages[0].from`
(`"1555"`). -/
theorem webhook_senderName_C3_cex :
    webhookPost contactsNoNamePayload =
      ⟨200, some contactsNoNameRecord, [.newMessage contactsNoNameRecord]⟩ ∧
    contactsNoNameRecord.senderName = JValue.undefined ∧
    contactsNoNameRecord.from_ = JValue.str "1555" ∧
    JValue.undefined ≠ JValue.str "1555" :=
  ⟨rfl, rfl, rfl, fun hh => nomatch hh⟩

/-- C3 (amended): the sender-name computation falls back to `messages[0].from`
only when `contacts`, `contacts[0]` or `contacts[0].profile` is falsy; once
`profile` is truthy it takes `profile.name` verbatim, `undefined` included
when the field is absent. -/
theorem webhook_senderName_C3_amended (changes msg initial contacts : JValue)
    (hfrom : getProp msg "from" = .ok initial)
    (hc : getProp changes "contacts" = .ok contacts) :
    (truthy contacts = false → computeSenderName changes msg = .ok initial) ∧
    (∀ c0, truthy contacts = true → getIdx contacts 0 = .ok c0 →
      truthy c0 = false → computeSenderName changes msg = .ok initial) ∧
    (∀ c0 profile, truthy contacts = true → getIdx contacts 0 = .ok c0 →
      truthy c0 = true → getProp c0 "profile" = .ok profile →
      truthy profile = false → computeSenderName changes msg = .ok initial) ∧
    (∀ c0 profile, truthy contacts = true → getIdx contacts 0 = .ok c0 →
      truthy c0 = true → getProp c0 "profile" = .ok profile →
      truthy profile = true →
      computeSenderName changes msg = getProp profile "name") := by
  refine ⟨fun h1 => ?_, fun c0 h1 h2 h3 => ?_,
    fun c0 profile h1 h2 h3 h4 h5 => ?_, fun c0 profile h1 h2 h3 h4 h5 => ?_⟩ <;>
    simp [computeSenderName, Bind.bind, Except.bind, Pure.pure, Except.pure,
      hfrom, hc, *]

/-- C3 amended witness: a present profile name is taken, at concrete values. -/
theorem webhook_senderName_C3_amended_witness :
    computeSenderName
        (.obj [("contacts",
          .arr [JValue.obj [("profile", .obj [("name", .str "Alice")])]])])
        (.obj [("from", .str "1555")]) =
      .ok (.str "Alice") :=
  Eq.trans
    ((webhook_senderName_C3_amended
        (.obj [("contacts",
          .arr [JValue.obj [("profile", .obj [("name", .str "Alice")])]])])
        (.obj [("from", .str "1555")]) (.str "1555")
        (.arr [JValue.obj [("profile", .obj [("name", .str "Alice")])]])
        rfl rfl).2.2.2
      (.obj [("profile", .obj [("name", .str "Alice")])])
      (.obj [("name", .str "Alice")]) rfl rfl rfl rfl rfl)
    rfl

/-- A well-formed delivery whose text body is the empty string. -/
def emptyBodyPayload : JValue :=
  .obj [("object", .bool true),
    ("entry", .arr [JValue.obj [("changes", .arr [JValue.obj [("value", .obj [
      ("messages", .arr [JValue.obj [("from", .str "1555"),
        ("id", .str "wamid.9"), ("type", .str "text"),
        ("text", .obj [("body", .str "")]),
        ("timestamp", .str "1700000000")]])])]])]])]

/-- The record stored for `emptyBodyPayload`, with empty `text`. -/
def emptyBodyRecord : MessageRecord :=
  { id := .str "wamid.9", from_ := .str "1555", senderName := .str "1555",
    «to» := none, text := .str "", timestamp := 1700000000000,
    type := "received" }

/-- A stored record has non-empty text: its `text` is some non-empty string. -/
def hasNonEmptyText (r : MessageRecord) : Prop :=
  ∃ s, r.text = JValue.str s ∧ s ≠ ""

/-- C9 counterexample: ingesting a text message whose `text.body` is `""`
reaches a store whose single record has empty `text`. -/
theorem store_nonempty_text_C9_cex :
    runOps [.webhook emptyBodyPayload] = [emptyBodyRecord] ∧
    ¬ hasNonEmptyText emptyBodyRecord := by
  refine ⟨rfl, ?_⟩
  rintro ⟨s, hs, hne⟩
  exact hne (JValue.str.inj hs).symm

/-- C9 (amended): every record produced by the send-message local echo has
truthy `text` — a non-empty string whenever it is a string at all (webhook
records instead take `messages[0].text.body` verbatim, which may be empty,
as the counterexample shows). -/
theorem template_text_ne_empty (x : String) : ("Template: " ++ x) ≠ "" := by
  intro hcontr
  have hlen := congrArg String.length hcontr
  rw [String.length_append, show "Template: ".length = 10 from rfl,
    show "".length = 0 from rfl] at hlen
  omega

theorem send_echo_nonempty_text_C9_amended (now : Int) (body : JValue)
    (r : MessageRecord) (h : localEcho now body = some r) :
    truthy r.text = true ∧ (∀ s, r.text = JValue.str s → s ≠ "") ∧
    r.type = "sent" := by
  unfold localEcho at h
  by_cases hcond : (truthy (jGetD body "to") &&
      (truthy (jGetD body "text") || truthy (jGetD body "templateName"))) = true
  · rw [if_pos hcond] at h
    cases h
    by_cases htext : truthy (jGetD body "text") = true
    · refine ⟨by simp [htext], ?_, rfl⟩
      intro s hsv
      simp only [htext, if_true] at hsv
      intro hempty
      rw [hsv, hempty] at htext
      simp [truthy] at htext
    · have hfalse : truthy (jGetD body "text") = false := by
        cases hb : truthy (jGetD body "text") with
        | true => exact absurd hb htext
        | false => rfl
      refine ⟨?_, ?_, rfl⟩
      · show truthy (if truthy (jGetD body "text") = true then jGetD body "text"
          else JValue.str ("Template: " ++ jsToString (jGetD body "templateName"))) =
            true
        rw [hfalse, if_neg Bool.false_ne_true]
        simp only [truthy]
        rw [bne_iff_ne]
        exact template_text_ne_empty _
      · intro s hsv
        have hsv2 : (if truthy (jGetD body "text") = true then jGetD body "text"
            else JValue.str
              ("Template: " ++ jsToString (jGetD body "templateName"))) =
            JValue.str s := hsv
        rw [hfalse, if_neg Bool.false_ne_true] at hsv2
        have hinj := JValue.str.inj hsv2
        intro hempty
        rw [hempty] at hinj
        exact template_text_ne_empty _ hinj
  · rw [if_neg hcond] at h
    cases h

/-- C9 amended witness: the echo of `{to:"1555", text:"hello"}` has truthy
text. -/
theorem send_echo_nonempty_text_C9_amended_witness :
    truthy (MessageRecord.text ⟨.str "sent_1700", .str "me", .str "Me",
      some (.str "1555"), .str "hello", 1700, "sent"⟩) = true :=
  (send_echo_nonempty_text_C9_amended 1700
    (.obj [("to", .str "1555"), ("text", .str "hello")]) _ rfl).1

end Bellizy
